import Mathlib

set_option maxRecDepth 10000

/-!
Verification of the transformation-and-validation core of the codegen
package: the name normalizer, the parameter classifier, the endpoint
transformer, the validator, and the file-path helpers of
`src/codegen/generate.go`.  Go strings are embedded as `List Char`.
-/

namespace Codegen

/-- Character sequences stand in for Go strings. -/
abbrev Str := List Char

/-- Embedding of Go `strings.ReplaceAll(s, old, "")` for the
single-character patterns it is applied to in `stripCurlyBraces`
(`src/codegen/generate.go`): every occurrence of the character `old`
is removed and nothing else changes. -/
def replaceAllWithEmpty (s : Str) (old : Char) : Str :=
  match s with
  | [] => []
  | c :: rest =>
    if c = old then replaceAllWithEmpty rest old
    else c :: replaceAllWithEmpty rest old

/-- `stripCurlyBraces` from `src/codegen/generate.go`: removes every
`{`, then every `}`, via two ReplaceAll calls. -/
def stripCurlyBraces (path : Str) : Str :=
  replaceAllWithEmpty (replaceAllWithEmpty path '{') '}'

/-- Modelled from the spec: `lastField` of the Name Normalizer (the file
holding it is absent from the sources; only its tests survive).  It
returns the substring after the final path separator `/`, markers and
all; with no separator present the whole input comes back. -/
def lastField (path : Str) : Str :=
  (path.reverse.takeWhile (fun c => c ≠ '/')).reverse

/-- ASCII lowering of a single character: the effect of Go
`strings.ToLower` on the ASCII path segments this generator feeds it. -/
def asciiToLower (c : Char) : Char :=
  if 65 ≤ c.toNat ∧ c.toNat ≤ 90 then Char.ofNat (c.toNat + 32) else c

/-- Modelled from the spec: `clean` of the Name Normalizer (absent from
the sources; only its tests survive).  It strips the positional-marker
characters `{` and `}` and any character not permitted in identifiers
(underscore), and lowercases what remains. -/
def clean (segment : Str) : Str :=
  ((stripCurlyBraces segment).filter (fun c => c ≠ '_')).map asciiToLower

/-- A character that `clean` may emit: no markers, no underscore, no
ASCII uppercase. -/
def isCleanChar (c : Char) : Bool :=
  decide (c ≠ '{') && decide (c ≠ '}') && decide (c ≠ '_')
    && decide (¬(65 ≤ c.toNat ∧ c.toNat ≤ 90))

/-- A string is clean when each of its characters is. -/
def isCleanStr (s : Str) : Bool :=
  s.all isCleanChar

/-- An OpenAPI schema as the tests build it: a declared `Type` and, for
arrays, the element schema under `Items`.  (`Type'` because `Type` is
taken in Lean.) -/
inductive OASSchema where
  | mk (Type' : Str) (Items : Option OASSchema)

/-- Equality of schemas is decidable (spelled out by hand because the
nesting through `Option` defeats the deriving handler). -/
def OASSchema.decEqAux : (a b : OASSchema) → Decidable (a = b)
  | .mk t1 none, .mk t2 none =>
    if h : t1 = t2 then isTrue (by rw [h])
    else isFalse (by intro he; cases he; exact h rfl)
  | .mk _ none, .mk _ (some _) => isFalse (by intro he; cases he)
  | .mk _ (some _), .mk _ none => isFalse (by intro he; cases he)
  | .mk t1 (some i), .mk t2 (some j) =>
    match decEqAux i j with
    | isTrue hij =>
      if h : t1 = t2 then isTrue (by rw [h, hij])
      else isFalse (by intro he; cases he; exact h rfl)
    | isFalse hij => isFalse (by intro he; cases he; exact hij rfl)

instance : DecidableEq OASSchema :=
  OASSchema.decEqAux

/-- The declared type of a schema. -/
def OASSchema.Type' : OASSchema → Str
  | .mk t _ => t

/-- The element schema of an array type, when declared. -/
def OASSchema.Items : OASSchema → Option OASSchema
  | .mk _ i => i

/-- The declared element type of an array schema; blank when no `Items`
schema is present. -/
def OASSchema.itemType (s : OASSchema) : Str :=
  match s.Items with
  | some i => i.Type'
  | none => []

/-- One raw parameter of a path item: a name and its schema. -/
structure OASParameter where
  Name : Str
  Schema : OASSchema
deriving DecidableEq

/-- A templatable parameter wraps one raw parameter (Go embeds a
`*framework.OASParameter`). -/
structure templatableParam where
  OASParameter : OASParameter
deriving DecidableEq

/-- The central record handed to the renderer, mirroring the Go struct
field-for-field. -/
structure templatableEndpoint where
  Endpoint : Str
  DirName : Str
  ExportedFuncPrefix : Str
  PrivateFuncPrefix : Str
  Parameters : List templatableParam
  SupportsRead : Bool
  SupportsWrite : Bool
  SupportsDelete : Bool
deriving DecidableEq

/-- Render a Bool the way Go fmt does. -/
def boolStr (b : Bool) : Str :=
  if b then "true".data else "false".data

/-- Field-by-field rendering of one parameter inside the struct dump. -/
def dumpParam (p : templatableParam) : Str :=
  "\x7bName:".data ++ p.OASParameter.Name ++ " SchemaType:".data
    ++ p.OASParameter.Schema.Type' ++ " ItemType:".data
    ++ p.OASParameter.Schema.itemType ++ "\x7d".data

/-- Separator-joined concatenation of rendered list elements, the shape
Go fmt gives a slice: `[e1 e2 ...]` without a trailing separator. -/
def joinSpaced : List Str → Str
  | [] => []
  | [s] => s
  | s :: rest => s ++ ' ' :: joinSpaced rest

/-- Modelled from the spec: the full field-by-field structural dump of a
`*templatableEndpoint` that every blank-field validation error embeds
(Go renders it with `%+v`).  The Go runtime prints the `Parameters`
slice as pointer values; the model renders the elements field-by-field
instead, which is the structural dump the spec describes.  On the
parameter lists the repository's tests exercise (empty ones) the two
renderings agree: `Parameters:[]`. -/
def dumpEndpoint (e : templatableEndpoint) : Str :=
  "&\x7bEndpoint:".data ++ e.Endpoint
    ++ " DirName:".data ++ e.DirName
    ++ " ExportedFuncPrefix:".data ++ e.ExportedFuncPrefix
    ++ " PrivateFuncPrefix:".data ++ e.PrivateFuncPrefix
    ++ " Parameters:[".data ++ joinSpaced (e.Parameters.map dumpParam)
    ++ "] SupportsRead:".data ++ boolStr e.SupportsRead
    ++ " SupportsWrite:".data ++ boolStr e.SupportsWrite
    ++ " SupportsDelete:".data ++ boolStr e.SupportsDelete
    ++ "\x7d".data

/-- Modelled from the spec: the Parameter Classifier (absent from the
sources; only its tests survive).  `string` is the supported scalar;
`array` is supported exactly when its item type is a supported scalar;
anything else yields the verbatim failure message the spec and the
tests give.  `none` means the parameter is supported. -/
def classifyParam (p : templatableParam) : Option Str :=
  let t := p.OASParameter.Schema.Type'
  if t = "string".data then none
  else if t = "array".data then
    let itemType := p.OASParameter.Schema.itemType
    if itemType = "string".data then none
    else some ("unsupported array type of ".data ++ itemType
      ++ " for ".data ++ p.OASParameter.Name)
  else some ("unsupported type of ".data ++ t ++ " for ".data
    ++ p.OASParameter.Name)

/-- The parameter walk of `Validate`: classify each parameter in list
order and stop at the first failure, aggregating nothing. -/
def validateParameters : List templatableParam → Option Str
  | [] => none
  | p :: rest =>
    match classifyParam p with
    | some msg => some msg
    | none => validateParameters rest

/-- Modelled from the spec: `Validate` on a possibly-nil
`*templatableEndpoint` (absent from the sources; only its tests
survive).  `none` models the Go nil pointer; a `some` result is the
error message, `none` on the right means the endpoint validated.  The
checks run in the fixed order the spec gives and short-circuit at the
first failure. -/
def Validate (e : Option templatableEndpoint) : Option Str :=
  match e with
  | none => some "endpoint is nil".data
  | some e =>
    if e.Endpoint = [] then
      some ("endpoint cannot be blank for ".data ++ dumpEndpoint e)
    else if e.DirName = [] then
      some ("dirname cannot be blank for ".data ++ dumpEndpoint e)
    else if e.ExportedFuncPrefix = [] then
      some ("exported function prefix cannot be blank for ".data
        ++ dumpEndpoint e)
    else if e.PrivateFuncPrefix = [] then
      some ("private function prefix cannot be blank for ".data
        ++ dumpEndpoint e)
    else validateParameters e.Parameters

/-- A path item as the core consumes it: per-method support flags and
the ordered parameter list. -/
structure OASPathItem where
  SupportsRead : Bool
  SupportsWrite : Bool
  SupportsDelete : Bool
  Parameters : List OASParameter
deriving DecidableEq

/-- Wrap one raw parameter, copying its schema through unchanged. -/
def toTemplatableParam (p : OASParameter) : templatableParam :=
  ⟨p⟩

/-- Modelled from the spec: the Endpoint Transformer (absent from the
sources; only its tests survive).  It derives the directory name and
the two function prefixes by normalizing the endpoint's last field,
wraps every raw parameter unchanged, and copies the method-support
flags through.  It is total: every input yields a fully-populated
record and every failure is deferred to `Validate`. -/
def toTemplatable (endpoint : Str) (item : OASPathItem) :
    templatableEndpoint :=
  let seg := clean (lastField endpoint)
  { Endpoint := endpoint
    DirName := seg
    ExportedFuncPrefix := seg
    PrivateFuncPrefix := seg
    Parameters := item.Parameters.map toTemplatableParam
    SupportsRead := item.SupportsRead
    SupportsWrite := item.SupportsWrite
    SupportsDelete := item.SupportsDelete }

/-- The template kinds of `src/codegen/generate.go` and the registry. -/
inductive templateType where
  | templateTypeDataSource
  | templateTypeResource
deriving DecidableEq

/-- `templateType.String()`: the directory family of generated files. -/
def templateType.str : templateType → Str
  | .templateTypeDataSource => "datasources".data
  | .templateTypeResource => "resources".data

/-- `endpointRegistry` from `src/codegen/endpoint_registry.go`, as an
association list. -/
def endpointRegistry : List (Str × templateType) :=
  [("/transform/role/\x7bname\x7d".data, templateType.templateTypeResource)]

/-- The single path separator `filepath.Join` inserts between the
components `codeFilePath` and `docFilePath` hand it (all non-empty and
already separator-normalized). -/
def filepathJoin : List Str → Str
  | [] => []
  | [p] => p
  | p :: rest => p ++ '/' :: filepathJoin rest

/-- `codeFilePath` from `src/codegen/generate.go`, with `pathToHomeDir`
(looked up from the working directory at package load) passed in as a
parameter.  The filename is `Sprintf("%s%s.go", tmplType.String(),
endpoint)` and the joined path is stripped of curly braces last. -/
def codeFilePath (pathToHomeDir : Str) (tmplType : templateType)
    (endpoint : Str) : Str :=
  stripCurlyBraces (filepathJoin
    [pathToHomeDir, "generated".data, tmplType.str ++ endpoint ++ ".go".data])

/-- `docFilePath` from `src/codegen/generate.go`, with `pathToHomeDir`
passed in as a parameter.  The filename is
`Sprintf("%s%s.md", tmplType.String(), endpoint)`. -/
def docFilePath (pathToHomeDir : Str) (tmplType : templateType)
    (endpoint : Str) : Str :=
  stripCurlyBraces (filepathJoin
    [pathToHomeDir, "website".data, "docs".data, "generated".data,
      tmplType.str ++ endpoint ++ ".md".data])

/-- The errors `GenerateCode` can hand back to `Run`: the sentinel
`errUnsupported` from `src/codegen/generate.go`, or any other error
(template-handler construction aside, these come out of file creation
and template execution). -/
inductive GenErr where
  | errUnsupported
  | other (msg : Str)
deriving DecidableEq

/-- What one call of `Run` did: which (endpoint, template) pairs were
handed to `GenerateCode`, in order; how many files were counted as
created; and whether `os.Exit` tore the process down (with its code). -/
structure RunResult where
  attempts : List (Str × templateType)
  createdCount : Nat
  exitCode : Option Nat
deriving DecidableEq

/-- The inner registry loop of `Run` (`src/codegen/generate.go`) for one
endpoint of the batch: each registry entry whose key equals the
endpoint is handed to `GenerateCode` (abstracted as `gen`);
`errUnsupported` is logged and skipped, any other error reaches
`os.Exit(1)`, success bumps the created count. -/
def runEndpoint (gen : Str → templateType → Option GenErr)
    (endpoint : Str) : List (Str × templateType) → RunResult
  | [] => ⟨[], 0, none⟩
  | (registeredEndpoint, tmplType) :: rest =>
    if endpoint ≠ registeredEndpoint then runEndpoint gen endpoint rest
    else
      match gen endpoint tmplType with
      | some GenErr.errUnsupported =>
        let r := runEndpoint gen endpoint rest
        ⟨(endpoint, tmplType) :: r.attempts, r.createdCount, r.exitCode⟩
      | some (GenErr.other _) => ⟨[(endpoint, tmplType)], 0, some 1⟩
      | none =>
        let r := runEndpoint gen endpoint rest
        ⟨(endpoint, tmplType) :: r.attempts, r.createdCount + 1, r.exitCode⟩

/-- The outer loop of `Run` over the batch, with Go's map iteration
fixed to list order.  Reaching `os.Exit(1)` stops the whole batch. -/
def runPaths (gen : Str → templateType → Option GenErr)
    (registry : List (Str × templateType)) : List Str → RunResult
  | [] => ⟨[], 0, none⟩
  | endpoint :: rest =>
    let r := runEndpoint gen endpoint registry
    match r.exitCode with
    | some code => ⟨r.attempts, r.createdCount, some code⟩
    | none =>
      let r2 := runPaths gen registry rest
      ⟨r.attempts ++ r2.attempts, r.createdCount + r2.createdCount,
        r2.exitCode⟩

/-- The attempts the claim expects of a batch: for each batch endpoint
in order, every registry entry registered under it. -/
def expectedAttempts (registry : List (Str × templateType)) :
    List Str → List (Str × templateType)
  | [] => []
  | endpoint :: rest =>
    registry.filter (fun r => endpoint = r.1) ++ expectedAttempts registry rest

/-- A generation function that fails on endpoint `a` with a
non-sentinel error and succeeds everywhere else. -/
def genBoom : Str → templateType → Option GenErr :=
  fun endpoint _ =>
    if endpoint = "a".data then some (GenErr.other "boom".data) else none

/-- A generation function whose only failure is the sentinel
`errUnsupported`, on endpoint `a`. -/
def genUnsup : Str → templateType → Option GenErr :=
  fun endpoint _ =>
    if endpoint = "a".data then some GenErr.errUnsupported else none

/-- A two-entry registry holding endpoints `a` and `b`. -/
def cexRegistry : List (Str × templateType) :=
  [("a".data, templateType.templateTypeResource),
    ("b".data, templateType.templateTypeResource)]

/-- No brace character occurs in the string. -/
def noCurlyBraces (s : Str) : Bool :=
  s.all (fun c => decide (c ≠ '{') && decide (c ≠ '}'))

lemma replaceAllWithEmpty_eq_filter (s : Str) (old : Char) :
    replaceAllWithEmpty s old = s.filter (fun c => c ≠ old) := by
  induction s with
  | nil => rfl
  | cons c rest ih =>
    by_cases h : c = old <;> simp [replaceAllWithEmpty, h, ih]

lemma stripCurlyBraces_eq_filter (s : Str) :
    stripCurlyBraces s
      = s.filter (fun c => decide (c ≠ '{') && decide (c ≠ '}')) := by
  unfold stripCurlyBraces
  rw [replaceAllWithEmpty_eq_filter, replaceAllWithEmpty_eq_filter,
    List.filter_filter]
  refine List.filter_congr ?_
  intro c _
  by_cases h1 : c = '{' <;> by_cases h2 : c = '}' <;> simp [h1, h2]

lemma char_eq_of_toNat_eq {c d : Char} (h : c.toNat = d.toNat) : c = d := by
  have hc := Char.ofNat_toNat c
  have hd := Char.ofNat_toNat d
  rw [← hc, ← hd, h]

lemma asciiToLower_toNat_of_upper {c : Char} (h1 : 65 ≤ c.toNat)
    (h2 : c.toNat ≤ 90) : (asciiToLower c).toNat = c.toNat + 32 := by
  have hf : asciiToLower c = Char.ofNat (c.toNat + 32) := by
    simp [asciiToLower, h1, h2]
  rw [hf]
  generalize c.toNat = n at h1 h2 ⊢
  interval_cases n <;> decide

lemma asciiToLower_of_not_upper {c : Char}
    (h : ¬(65 ≤ c.toNat ∧ c.toNat ≤ 90)) : asciiToLower c = c := by
  simp only [asciiToLower, if_neg h]

lemma isCleanChar_asciiToLower {c : Char} (h1 : c ≠ '{') (h2 : c ≠ '}')
    (h3 : c ≠ '_') : isCleanChar (asciiToLower c) = true := by
  by_cases hu : 65 ≤ c.toNat ∧ c.toNat ≤ 90
  · have ht := asciiToLower_toNat_of_upper hu.1 hu.2
    have hb : 97 ≤ (asciiToLower c).toNat ∧ (asciiToLower c).toNat ≤ 122 := by
      omega
    simp only [isCleanChar, Bool.and_eq_true, decide_eq_true_eq]
    refine ⟨⟨⟨?_, ?_⟩, ?_⟩, ?_⟩
    · intro he; rw [he] at hb; revert hb; decide
    · intro he; rw [he] at hb; revert hb; decide
    · intro he; rw [he] at hb; revert hb; decide
    · omega
  · rw [asciiToLower_of_not_upper hu]
    simp only [isCleanChar, Bool.and_eq_true, decide_eq_true_eq]
    exact ⟨⟨⟨h1, h2⟩, h3⟩, hu⟩

/-- Every output of `clean` is clean. -/
lemma isCleanStr_clean (s : Str) : isCleanStr (clean s) = true := by
  simp only [isCleanStr, clean, stripCurlyBraces_eq_filter, List.all_eq_true]
  intro c hc
  rcases List.mem_map.mp hc with ⟨d, hd, hdc⟩
  have hd2 := List.mem_filter.mp hd
  have hd3 := List.mem_filter.mp hd2.1
  subst hdc
  have h3 : d ≠ '_' := by simpa using hd2.2
  have hbr : d ≠ '{' ∧ d ≠ '}' := by
    have := hd3.2
    simp only [Bool.and_eq_true, decide_eq_true_eq] at this
    exact this
  exact isCleanChar_asciiToLower hbr.1 hbr.2 h3

/-- `clean` leaves an already-clean string unchanged. -/
lemma clean_of_isCleanStr {x : Str} (h : isCleanStr x = true) :
    clean x = x := by
  simp only [isCleanStr, List.all_eq_true, isCleanChar, Bool.and_eq_true,
    decide_eq_true_eq] at h
  have h1 : stripCurlyBraces x = x := by
    rw [stripCurlyBraces_eq_filter]
    refine List.filter_eq_self.mpr ?_
    intro c hc
    have := h c hc
    simp only [Bool.and_eq_true, decide_eq_true_eq]
    exact ⟨this.1.1.1, this.1.1.2⟩
  have h2 : x.filter (fun c => decide (c ≠ '_')) = x := by
    refine List.filter_eq_self.mpr ?_
    intro c hc
    simpa using (h c hc).1.2
  have h3 : x.map asciiToLower = x := by
    rw [List.map_congr_left (fun c hc => asciiToLower_of_not_upper (h c hc).2)]
    simp
  simp only [clean, h1]
  calc (x.filter (fun c => decide (c ≠ '_'))).map asciiToLower
      = x.map asciiToLower := by rw [h2]
    _ = x := h3

lemma validateParameters_eq_findSome (ps : List templatableParam) :
    validateParameters ps = ps.findSome? classifyParam := by
  induction ps with
  | nil => rfl
  | cons p rest ih =>
    cases hc : classifyParam p <;>
      simp [validateParameters, List.findSome?, hc, ih]

lemma noCurlyBraces_stripCurlyBraces (s : Str) :
    noCurlyBraces (stripCurlyBraces s) = true := by
  rw [noCurlyBraces, stripCurlyBraces_eq_filter, List.all_eq_true]
  intro c hc
  exact (List.mem_filter.mp hc).2

lemma takeWhile_append_of_all {p : Char → Bool} (c0 : Char)
    (hc : p c0 = false) :
    ∀ l r : Str, (∀ c ∈ l, p c = true) → (l ++ c0 :: r).takeWhile p = l := by
  intro l
  induction l with
  | nil => intro r _; simp [List.takeWhile_cons, hc]
  | cons a l ih =>
    intro r h
    simp only [List.cons_append, List.takeWhile_cons, h a (by simp),
      if_true]
    rw [ih r (fun c hm => h c (by simp [hm]))]

lemma runEndpoint_no_other (gen : Str → templateType → Option GenErr)
    (endpoint : Str) (registry : List (Str × templateType))
    (h : ∀ e tt m, gen e tt ≠ some (GenErr.other m)) :
    (runEndpoint gen endpoint registry).exitCode = none
  ∧ (runEndpoint gen endpoint registry).attempts
      = registry.filter (fun r => endpoint = r.1) := by
  induction registry with
  | nil => exact ⟨rfl, rfl⟩
  | cons r rest ih =>
    obtain ⟨re, tt⟩ := r
    by_cases he : endpoint = re
    · subst he
      cases hgen : gen endpoint tt with
      | none =>
        simp [runEndpoint, hgen, List.filter_cons, ih.1, ih.2]
      | some err =>
        cases err with
        | errUnsupported =>
          simp [runEndpoint, hgen, List.filter_cons, ih.1, ih.2]
        | other msg => exact absurd hgen (h endpoint tt msg)
    · simp [runEndpoint, he, List.filter_cons, ih.1, ih.2]

/-- C3: `Validate` applied to the nil endpoint returns exactly the error
"endpoint is nil"; as a total Lean function over `Option`, validation
cannot panic on the nil input. -/
theorem Validate_nil_total : Validate none = some "endpoint is nil".data :=
  rfl

/-- C2: `Validate` checks in a fixed order and short-circuits at the
first failure — nil endpoint, blank `Endpoint`, blank `DirName`, blank
`ExportedFuncPrefix`, blank `PrivateFuncPrefix`, then the parameters in
order; an endpoint with a non-blank `Endpoint` and a blank `DirName`
draws the dirname-blank error, and every blank-field message embeds the
full field-by-field dump of the struct. -/
theorem Validate_ordered_short_circuit (e : templatableEndpoint) :
    Validate none = some "endpoint is nil".data
  ∧ (e.Endpoint = [] → Validate (some e)
      = some ("endpoint cannot be blank for ".data ++ dumpEndpoint e))
  ∧ (e.Endpoint ≠ [] → e.DirName = [] → Validate (some e)
      = some ("dirname cannot be blank for ".data ++ dumpEndpoint e))
  ∧ (e.Endpoint ≠ [] → e.DirName ≠ [] → e.ExportedFuncPrefix = [] →
      Validate (some e) = some
        ("exported function prefix cannot be blank for ".data
          ++ dumpEndpoint e))
  ∧ (e.Endpoint ≠ [] → e.DirName ≠ [] → e.ExportedFuncPrefix ≠ [] →
      e.PrivateFuncPrefix = [] → Validate (some e) = some
        ("private function prefix cannot be blank for ".data
          ++ dumpEndpoint e))
  ∧ (e.Endpoint ≠ [] → e.DirName ≠ [] → e.ExportedFuncPrefix ≠ [] →
      e.PrivateFuncPrefix ≠ [] →
      Validate (some e) = validateParameters e.Parameters) := by
  refine ⟨rfl, ?_, ?_, ?_, ?_, ?_⟩
  · intro h1; simp [Validate, h1]
  · intro h1 h2; simp [Validate, h1, h2]
  · intro h1 h2 h3; simp [Validate, h1, h2, h3]
  · intro h1 h2 h3 h4; simp [Validate, h1, h2, h3, h4]
  · intro h1 h2 h3 h4; simp [Validate, h1, h2, h3, h4]

/-- Witness for C2: the repository's own test case — `Endpoint` set to
"foo", everything else blank — draws the dirname-blank error with the
test file's exact message, dump included. -/
theorem Validate_ordered_short_circuit_witness :
    ("foo".data ≠ ([] : Str))
  ∧ Validate (some ⟨"foo".data, [], [], [], [], false, false, false⟩)
      = some "dirname cannot be blank for &\x7bEndpoint:foo DirName: ExportedFuncPrefix: PrivateFuncPrefix: Parameters:[] SupportsRead:false SupportsWrite:false SupportsDelete:false\x7d".data :=
  ⟨by decide, by
    have h := (Validate_ordered_short_circuit
      ⟨"foo".data, [], [], [], [], false, false, false⟩).2.2.1
      (by decide) rfl
    rw [h]
    decide⟩

/-- C4: the Parameter Classifier accepts `string` and `array`-of-string
parameters, rejects an unsupported scalar `t` with exactly
"unsupported type of t for name", rejects an array of unsupported item
type `u` with exactly "unsupported array type of u for name", and
`Validate` of an otherwise-valid endpoint returns the error of the
first unsupported parameter in list order, aggregating nothing. -/
theorem classifyParam_messages_first_error (e : templatableEndpoint)
    (p : templatableParam) (ps : List templatableParam) :
    (p.OASParameter.Schema.Type' = "string".data → classifyParam p = none)
  ∧ (p.OASParameter.Schema.Type' = "array".data →
      p.OASParameter.Schema.itemType = "string".data →
      classifyParam p = none)
  ∧ (p.OASParameter.Schema.Type' ≠ "string".data →
      p.OASParameter.Schema.Type' ≠ "array".data →
      classifyParam p = some ("unsupported type of ".data
        ++ p.OASParameter.Schema.Type' ++ " for ".data
        ++ p.OASParameter.Name))
  ∧ (p.OASParameter.Schema.Type' = "array".data →
      p.OASParameter.Schema.itemType ≠ "string".data →
      classifyParam p = some ("unsupported array type of ".data
        ++ p.OASParameter.Schema.itemType ++ " for ".data
        ++ p.OASParameter.Name))
  ∧ validateParameters ps = ps.findSome? classifyParam
  ∧ (e.Endpoint ≠ [] → e.DirName ≠ [] → e.ExportedFuncPrefix ≠ [] →
      e.PrivateFuncPrefix ≠ [] →
      Validate (some e) = e.Parameters.findSome? classifyParam) := by
  refine ⟨?_, ?_, ?_, ?_, validateParameters_eq_findSome ps, ?_⟩
  · intro h1; simp [classifyParam, h1]
  · intro h1 h2; simp [classifyParam, h1, h2]
  · intro h1 h2; simp [classifyParam, h1, h2]
  · intro h1 h2; simp [classifyParam, h1, h2]
  · intro h1 h2 h3 h4
    rw [← validateParameters_eq_findSome]
    simp [Validate, h1, h2, h3, h4]

/-- Witness for C4: the repository's own test cases — the `foo`-typed
parameter named `some-param` draws exactly
"unsupported type of foo for some-param", and the array-of-object
parameter named `foo` makes the otherwise-valid endpoint draw exactly
"unsupported array type of object for foo" as `Validate`'s result. -/
theorem classifyParam_messages_first_error_witness :
    (("foo".data : Str) ≠ "string".data)
  ∧ (("foo".data : Str) ≠ "array".data)
  ∧ classifyParam ⟨⟨"some-param".data, .mk "foo".data none⟩⟩
      = some "unsupported type of foo for some-param".data
  ∧ Validate (some ⟨"foo".data, "foo".data, "foo".data, "foo".data,
      [⟨⟨"foo".data, .mk "array".data (some (.mk "object".data none))⟩⟩],
      false, false, false⟩)
      = some "unsupported array type of object for foo".data := by
  refine ⟨by decide, by decide, ?_, ?_⟩
  · have h := (classifyParam_messages_first_error
      ⟨[], [], [], [], [], false, false, false⟩
      ⟨⟨"some-param".data, .mk "foo".data none⟩⟩ []).2.2.1
      (by decide) (by decide)
    rw [h]
    decide
  · have h := (classifyParam_messages_first_error
      ⟨"foo".data, "foo".data, "foo".data, "foo".data,
        [⟨⟨"foo".data, .mk "array".data (some (.mk "object".data none))⟩⟩],
        false, false, false⟩
      ⟨⟨"foo".data, .mk "foo".data none⟩⟩ []).2.2.2.2.2
      (by decide) (by decide) (by decide) (by decide)
    rw [h]
    decide

/-- C5: for every path whose last `/`-separated segment holds no
further separator, `lastField` returns that segment verbatim — bare
segments come back bare and brace-delimited segments come back with
their braces intact. -/
theorem lastField_last_segment (pre seg : Str) (h : '/' ∉ seg) :
    lastField (pre ++ '/' :: seg) = seg := by
  unfold lastField
  have h1 : (pre ++ '/' :: seg).reverse = seg.reverse ++ '/' :: pre.reverse := by
    simp
  rw [h1, takeWhile_append_of_all '/' (by decide) _ _ ?_,
    List.reverse_reverse]
  intro c hm
  have hc : c ∈ seg := List.mem_reverse.mp hm
  simp only [decide_eq_true_eq]
  exact fun he => h (he ▸ hc)

/-- Witness for C5: the test file's path
`/transit/export/{type}/{name}/{version}` ends in the brace-delimited
segment `{version}`, and `lastField` returns it braces intact. -/
theorem lastField_last_segment_witness :
    '/' ∉ "\x7bversion\x7d".data
  ∧ lastField "/transit/export/\x7btype\x7d/\x7bname\x7d/\x7bversion\x7d".data
      = "\x7bversion\x7d".data :=
  ⟨by decide, by
    have he : "/transit/export/\x7btype\x7d/\x7bname\x7d".data ++ '/'
        :: "\x7bversion\x7d".data
        = "/transit/export/\x7btype\x7d/\x7bname\x7d/\x7bversion\x7d".data := by
      decide
    rw [← he]
    exact lastField_last_segment
      "/transit/export/\x7btype\x7d/\x7bname\x7d".data
      "\x7bversion\x7d".data (by decide)⟩

/-- C6: `clean` strips the brace markers and the characters not
permitted in identifiers (underscore) and returns a lowercase,
marker-free token; in particular it sends "{role_name}" to "rolename",
"{name}" to "name" and "unlikely" to "unlikely". -/
theorem clean_strips_and_lowercases (s : Str) :
    isCleanStr (clean s) = true
  ∧ clean "\x7brole_name\x7d".data = "rolename".data
  ∧ clean "\x7bname\x7d".data = "name".data
  ∧ clean "unlikely".data = "unlikely".data :=
  ⟨isCleanStr_clean s, by decide, by decide, by decide⟩

/-- C7: `clean` is idempotent on already-clean input. -/
theorem clean_idempotent_on_clean (x : Str) (h : isCleanStr x = true) :
    clean (clean x) = clean x :=
  clean_of_isCleanStr (isCleanStr_clean x)

/-- Witness for C7: the already-clean token "alphabet". -/
theorem clean_idempotent_on_clean_witness :
    isCleanStr "alphabet".data = true
  ∧ clean (clean "alphabet".data) = clean "alphabet".data :=
  ⟨by decide, clean_idempotent_on_clean "alphabet".data (by decide)⟩

/-- C8: transformation and validation are deterministic — as pure
functions of structurally identical inputs they give identical
templatable outputs and identical errors (or identical absence of an
error) on every run. -/
theorem transform_validate_deterministic (endpoint1 endpoint2 : Str)
    (item1 item2 : OASPathItem) (e1 e2 : Option templatableEndpoint)
    (hend : endpoint1 = endpoint2) (hitem : item1 = item2)
    (he : e1 = e2) :
    toTemplatable endpoint1 item1 = toTemplatable endpoint2 item2
  ∧ Validate e1 = Validate e2 := by
  subst hend
  subst hitem
  subst he
  exact ⟨rfl, rfl⟩

/-- Witness for C8: the registry's endpoint `/transform/role/{name}`
with its string parameter `name`, compared against itself. -/
theorem transform_validate_deterministic_witness :
    ("/transform/role/\x7bname\x7d".data : Str)
      = "/transform/role/\x7bname\x7d".data
  ∧ toTemplatable "/transform/role/\x7bname\x7d".data
        ⟨true, true, false, [⟨"name".data, .mk "string".data none⟩]⟩
      = toTemplatable "/transform/role/\x7bname\x7d".data
        ⟨true, true, false, [⟨"name".data, .mk "string".data none⟩]⟩
  ∧ Validate none = Validate none :=
  ⟨rfl,
    (transform_validate_deterministic
      "/transform/role/\x7bname\x7d".data
      "/transform/role/\x7bname\x7d".data
      ⟨true, true, false, [⟨"name".data, .mk "string".data none⟩]⟩
      ⟨true, true, false, [⟨"name".data, .mk "string".data none⟩]⟩
      none none rfl rfl rfl).1,
    (transform_validate_deterministic
      "/transform/role/\x7bname\x7d".data
      "/transform/role/\x7bname\x7d".data
      ⟨true, true, false, [⟨"name".data, .mk "string".data none⟩]⟩
      ⟨true, true, false, [⟨"name".data, .mk "string".data none⟩]⟩
      none none rfl rfl rfl).2⟩

/-- C9: the Endpoint Transformer is total and never fails: its result
type carries no error component, every field of the returned record is
populated from the input (blank only when the normalized path segment
is itself degenerate), and the method-support flags are copied through
unchanged.  Classification and blankness are not checked here — they
are left to `Validate`. -/
theorem toTemplatable_total_copies_flags (endpoint : Str)
    (item : OASPathItem) :
    (toTemplatable endpoint item).SupportsRead = item.SupportsRead
  ∧ (toTemplatable endpoint item).SupportsWrite = item.SupportsWrite
  ∧ (toTemplatable endpoint item).SupportsDelete = item.SupportsDelete
  ∧ (toTemplatable endpoint item).Endpoint = endpoint
  ∧ (toTemplatable endpoint item).DirName = clean (lastField endpoint)
  ∧ (toTemplatable endpoint item).ExportedFuncPrefix
      = clean (lastField endpoint)
  ∧ (toTemplatable endpoint item).PrivateFuncPrefix
      = clean (lastField endpoint)
  ∧ (toTemplatable endpoint item).Parameters
      = item.Parameters.map toTemplatableParam :=
  ⟨rfl, rfl, rfl, rfl, rfl, rfl, rfl, rfl⟩

/-- C10: `stripCurlyBraces` is exactly the filter dropping `{` and `}`
— it removes every brace and changes nothing else — and therefore the
paths `codeFilePath` and `docFilePath` return contain no brace
character, whatever the home directory, template type and endpoint. -/
theorem stripCurlyBraces_filter_and_paths (s pathToHomeDir endpoint : Str)
    (tmplType : templateType) :
    stripCurlyBraces s
      = s.filter (fun c => decide (c ≠ '{') && decide (c ≠ '}'))
  ∧ noCurlyBraces (codeFilePath pathToHomeDir tmplType endpoint) = true
  ∧ noCurlyBraces (docFilePath pathToHomeDir tmplType endpoint) = true :=
  ⟨stripCurlyBraces_eq_filter s,
    noCurlyBraces_stripCurlyBraces _,
    noCurlyBraces_stripCurlyBraces _⟩

/-- C1 fails on the code: with endpoints `a` and `b` both in the batch
and both registered, a non-`errUnsupported` error while generating `a`
reaches `os.Exit(1)`, so `b` is never attempted — the attempts list
stops at `a` and excludes `b`'s registry entry. -/
theorem run_error_aborts_remaining_cex :
    genBoom "a".data templateType.templateTypeResource
      = some (GenErr.other "boom".data)
  ∧ ("b".data, templateType.templateTypeResource) ∈ cexRegistry
  ∧ (runPaths genBoom cexRegistry ["a".data, "b".data]).attempts
      = [("a".data, templateType.templateTypeResource)]
  ∧ (runPaths genBoom cexRegistry ["a".data, "b".data]).exitCode
      = some 1 := by
  decide

/-- C1 amended: only the sentinel `errUnsupported` is fatal for its
endpoint alone — when `GenerateCode` never returns a different error,
the run reaches no `os.Exit` and every registered endpoint of the
batch is attempted in order, unsupported ones included; any other
error terminates the whole run and the remaining endpoints are not
attempted. -/
theorem run_unsupported_isolated
    (gen : Str → templateType → Option GenErr)
    (registry : List (Str × templateType)) (paths : List Str)
    (h : ∀ e tt m, gen e tt ≠ some (GenErr.other m)) :
    (runPaths gen registry paths).exitCode = none
  ∧ (runPaths gen registry paths).attempts
      = expectedAttempts registry paths := by
  induction paths with
  | nil => exact ⟨rfl, rfl⟩
  | cons endpoint rest ih =>
    have he := runEndpoint_no_other gen endpoint registry h
    simp [runPaths, expectedAttempts, he.1, he.2, ih.1, ih.2]

/-- Witness for C1 amended: endpoint `a` fails with `errUnsupported`,
yet `b` is still attempted and the run completes. -/
theorem run_unsupported_isolated_witness :
    (∀ e tt m, genUnsup e tt ≠ some (GenErr.other m))
  ∧ (runPaths genUnsup cexRegistry ["a".data, "b".data]).exitCode = none
  ∧ (runPaths genUnsup cexRegistry ["a".data, "b".data]).attempts
      = expectedAttempts cexRegistry ["a".data, "b".data] := by
  have hno : ∀ e tt m, genUnsup e tt ≠ some (GenErr.other m) := by
    intro e tt m hcontra
    by_cases he : e = "a".data <;> simp [genUnsup, he] at hcontra
  have h := run_unsupported_isolated genUnsup cexRegistry
    ["a".data, "b".data] hno
  exact ⟨hno, h.1, h.2⟩

end Codegen
